import Mathlib

/-!
Verification development for the splat-viewer morph and floating-marker core
(`src/SplatViewer.ts`).  All numeric state is embedded over `ℚ`; JavaScript
`Math` helpers (`%`, `round`, `min`, `max`) are modelled exactly.  The two
exponential-follow factors `1 - exp(-dt/0.18)` and `1 - exp(-dt/0.1)` are
transcendental, so they enter the embedding as explicit parameters
(`colorFollow`, `scaleFollow`); every theorem that touches them quantifies
over all parameter values, which subsumes the concrete exponentials.
-/

/-- JavaScript truncation toward zero, used by the `%` operator. -/
def jsTrunc (x : ℚ) : ℤ :=
  if 0 ≤ x then ⌊x⌋ else ⌈x⌉

/-- JavaScript remainder `a % n` (sign of the dividend): `a - n * trunc (a / n)`. -/
def jsMod (a n : ℚ) : ℚ :=
  a - n * (jsTrunc (a / n) : ℚ)

/-- JavaScript `Math.round`: half-up rounding, `⌊x + 1/2⌋` for every real argument. -/
def jsRound (x : ℚ) : ℤ :=
  ⌊x + 1/2⌋

/-- Clamp to `[0, 1]`, the `Math.max(0, Math.min(1, t))` idiom of the source. -/
def clamp01 (t : ℚ) : ℚ :=
  max 0 (min 1 t)

/-- `SplatViewer.smoothstep` (`src/SplatViewer.ts:662`): Hermite smoothstep with
the source's equal-edge guard.  The GLSL builtin used by the shader kernel
agrees with this on distinct edges. -/
def smoothstepQ (edge0 edge1 x : ℚ) : ℚ :=
  if edge0 = edge1 then (if x < edge0 then 0 else 1)
  else
    let t := clamp01 ((x - edge0) / (edge1 - edge0))
    t * t * (3 - 2 * t)

/-- `SplatViewer.mix` (`src/SplatViewer.ts:668`): linear interpolation with the
interpolant clamped to `[0,1]`. -/
def mixQ (a b t : ℚ) : ℚ :=
  a * (1 - clamp01 t) + b * clamp01 t

/-- `SplatViewer.easeInOutCubic` (`src/SplatViewer.ts:656`). -/
def easeInOutCubic (t : ℚ) : ℚ :=
  let x := clamp01 t
  if x < 1/2 then 4 * x * x * x
  else 1 - (-2 * x + 2) ^ 3 / 2

/-- `SplatViewer.easeOutCubic` (`src/SplatViewer.ts:673`). -/
def easeOutCubic (t : ℚ) : ℚ :=
  let x := clamp01 t
  1 - (1 - x) ^ 3

/-- Runtime values of the `animationMode` field.  The first six members are the
canonical modes of `type AnimMode` (`src/SplatViewer.ts:5`); the spec's
canonical names `wave` and `breathe` are the members here called `zwave` and
`breath`.  `protoJunk k` models the truthy non-`AnimMode` value that
`map[normalized] || "none"` (`src/SplatViewer.ts:278`) leaks when `normalized`
is a property `k` inherited from `Object.prototype` (e.g. the `Object`
constructor function for `"constructor"`): the assigned value then violates the
declared `AnimMode` union type.  Downstream the source only ever compares
`animationMode` against the six mode strings, and `protoJunk k` is unequal to
all of them, exactly like the leaked object at runtime. -/
inductive AnimMode where
  | none
  | zwave
  | swirl
  | noise
  | breath
  | explode
  | protoJunk (protoKey : String)
deriving DecidableEq, Repr

/-- Performance tiers (`type PerfLevel`, `src/SplatViewer.ts:6`). -/
inductive PerfLevel where
  | high
  | low
deriving DecidableEq, Repr

/-- `SplatViewer.animationModeToInt` (`src/SplatViewer.ts:709`). -/
def animationModeToInt (mode : AnimMode) : ℕ :=
  match mode with
  | .zwave => 1
  | .swirl => 2
  | .noise => 3
  | .breath => 4
  | .explode => 5
  | _ => 0

/-- Keys of the alias table in `SplatViewer.setAnimation` (`src/SplatViewer.ts:264`). -/
def aliasKeys : List String :=
  ["none", "off", "z wave", "z_wave", "z-wave", "zwave",
   "swirl", "noise", "breath", "breathe", "explode"]

/-- Properties the alias lookup can reach on `Object.prototype`: reading any of
these on the object literal `map` returns a truthy inherited value (a function,
or the prototype object itself for `__proto__`), not `undefined`. -/
def objectPrototypeKeys : List String :=
  ["constructor", "__proto__", "hasOwnProperty", "isPrototypeOf",
   "propertyIsEnumerable", "toLocaleString", "toString", "valueOf",
   "__defineGetter__", "__defineSetter__", "__lookupGetter__",
   "__lookupSetter__"]

/-- The value `map[normalized] || "none"` assigns to `animationMode`
(`src/SplatViewer.ts:264-278`): an own key of the object literal yields its
`AnimMode`; a key inherited from `Object.prototype` yields that truthy
inherited value (`protoJunk`, not short-circuited by `|| "none"`); any other
key yields `undefined`, which the `||` replaces by `"none"`. -/
def setAnimationAliasMap (s : String) : AnimMode :=
  if s = "none" then .none
  else if s = "off" then .none
  else if s = "z wave" then .zwave
  else if s = "z_wave" then .zwave
  else if s = "z-wave" then .zwave
  else if s = "zwave" then .zwave
  else if s = "swirl" then .swirl
  else if s = "noise" then .noise
  else if s = "breath" then .breath
  else if s = "breathe" then .breath
  else if s = "explode" then .explode
  else if s ∈ objectPrototypeKeys then .protoJunk s
  else .none

/-- JavaScript `String.prototype.toLowerCase`, modelled characterwise (the
inputs of interest are ASCII, where `Char.toLower` agrees with JS). -/
def jsToLowerCase (s : String) : String :=
  String.mk (s.data.map Char.toLower)

/-- JavaScript `String.prototype.trim`: strip leading and trailing whitespace. -/
def jsTrim (s : String) : String :=
  String.mk ((((s.data.dropWhile Char.isWhitespace).reverse).dropWhile
    Char.isWhitespace).reverse)

/-- Input normalization of `setAnimation` (`src/SplatViewer.ts:263`):
`String(mode || "none").toLowerCase().trim()` followed by the alias lookup
(`""` is the only falsy string, giving the `|| "none"` fallback). -/
def normalizeAnimationInput (mode : String) : AnimMode :=
  setAnimationAliasMap (jsTrim (jsToLowerCase (if mode = "" then "none" else mode)))

/-- Morph loop length in seconds (`morphLoopSeconds`, `src/SplatViewer.ts:51`). -/
def morphLoopSeconds : ℚ := 32/10

/-- Point-cloud enter threshold (`pointCloudEnterMorph`, `src/SplatViewer.ts:52`). -/
def pointCloudEnterMorph : ℚ := 38/100

/-- Point-cloud exit threshold (`pointCloudExitMorph`, `src/SplatViewer.ts:53`). -/
def pointCloudExitMorph : ℚ := 2/100

/-- Reveal-window start (`modelRevealStartMorph`, `src/SplatViewer.ts:54`). -/
def modelRevealStartMorph : ℚ := 34/100

/-- Reveal-window starting gain (`modelRevealStartGain`, `src/SplatViewer.ts:55`). -/
def modelRevealStartGain : ℚ := 62/100

/-- Reveal-window starting scale (`modelRevealStartScale`, `src/SplatViewer.ts:56`). -/
def modelRevealStartScale : ℚ := 84/100

/-- Luminance bridge duration (`luminanceBridgeDurationSeconds`, `src/SplatViewer.ts:58`). -/
def luminanceBridgeDurationSeconds : ℚ := 32/100

/-- Scale bridge duration (`scaleBridgeDurationSeconds`, `src/SplatViewer.ts:62`). -/
def scaleBridgeDurationSeconds : ℚ := 28/100

/-- Maximum color-gain rise per second (`colorRisePerSecond`, `src/SplatViewer.ts:68`). -/
def colorRisePerSecond : ℚ := 35/100

/-- Maximum color-gain fall per second (`colorFallPerSecond`, `src/SplatViewer.ts:69`). -/
def colorFallPerSecond : ℚ := 18/10

/-- Loop phase of the morph clock (`src/SplatViewer.ts:505`):
`(elapsedSeconds % morphLoopSeconds) / morphLoopSeconds`. -/
def jsPhase (elapsedSeconds : ℚ) : ℚ :=
  jsMod elapsedSeconds morphLoopSeconds / morphLoopSeconds

/-- Triangle wave of the morph clock (`src/SplatViewer.ts:507`). -/
def triangleOf (elapsedSeconds : ℚ) : ℚ :=
  if jsPhase elapsedSeconds < 1/2 then jsPhase elapsedSeconds * 2
  else (1 - jsPhase elapsedSeconds) * 2

/-- Eased morph scalar (`src/SplatViewer.ts:508`). -/
def morphOf (elapsedSeconds : ℚ) : ℚ :=
  easeInOutCubic (triangleOf elapsedSeconds)

/-- Dispersing flag (`src/SplatViewer.ts:506`): first half of the loop. -/
def dispersingOf (elapsedSeconds : ℚ) : Bool :=
  decide (jsPhase elapsedSeconds < 1/2)

/-- Morph and dispersing flag as computed per tick (`src/SplatViewer.ts:502-509`):
both stay at their `(0, false)` initializers when the mode is `none`. -/
def morphDispersing (mode : AnimMode) (elapsedSeconds : ℚ) : ℚ × Bool :=
  if mode = AnimMode.none then (0, false)
  else (morphOf elapsedSeconds, dispersingOf elapsedSeconds)

/-- First point-cloud gate chain (`src/SplatViewer.ts:511-518`): the tick's
provisional representation target. -/
def gateTargetPointCloud (mode : AnimMode) (dispersing : Bool) (morph : ℚ)
    (prev : Bool) : Bool :=
  if mode = AnimMode.none then false
  else if dispersing = true ∧ pointCloudEnterMorph ≤ morph then true
  else if dispersing = false ∧ morph ≤ pointCloudExitMorph then false
  else prev

/-- Reveal-window predicate (`src/SplatViewer.ts:520-521`). -/
def inModelRevealWindow (mode : AnimMode) (dispersing : Bool) (morph : ℚ) : Bool :=
  decide (mode ≠ AnimMode.none) && !dispersing && decide (morph ≤ modelRevealStartMorph)

/-- Representation override applied when a splat mesh is present
(`src/SplatViewer.ts:569-573`). -/
def overridePointCloud (mode : AnimMode) (dispersing : Bool) (morph : ℚ)
    (target : Bool) : Bool :=
  if inModelRevealWindow mode dispersing morph then false
  else if dispersing = false ∧ morph ≤ pointCloudExitMorph + 3/100 then false
  else target

/-- Rate limiter for the applied color gain (`src/SplatViewer.ts:629-641`).
`colorFollow` stands for the source's `1 - Math.exp(-dt / 0.18)`. -/
def rateLimitColorGain (applied desired colorFollow dt : ℚ) : ℚ :=
  let colorFollowTarget := applied + (desired - applied) * colorFollow
  let colorStep := colorFollowTarget - applied
  if colorRisePerSecond * dt < colorStep then applied + colorRisePerSecond * dt
  else if colorStep < -(colorFallPerSecond * dt) then applied - colorFallPerSecond * dt
  else colorFollowTarget

/-- Animation-relevant state of a `SplatViewer` instance (the fields of
`src/SplatViewer.ts:40-115` that the morph/gate/bridge pipeline reads or
writes).  `hasUniforms` models `customUniforms !== null`, `hasSplat` models
`viewer?.splatMesh` being present; the `u*` fields are the custom shader
uniforms. -/
structure ViewerState where
  hasUniforms : Bool
  hasSplat : Bool
  isMobileLike : Bool
  animationMode : AnimMode
  animationStartTime : ℚ
  lastUniformUpdateTimeMs : ℚ
  pointCloudEnabled : Bool
  luminanceBridgeActive : Bool
  luminanceBridgeFrom : ℚ
  luminanceBridgeElapsed : ℚ
  scaleBridgeActive : Bool
  scaleBridgeFrom : ℚ
  scaleBridgeElapsed : ℚ
  colorGainApplied : ℚ
  scaleApplied : ℚ
  sceneRadius : ℚ
  uTime : ℚ
  uMode : ℕ
  uMorph : ℚ
  uColorGain : ℚ
  uStrength : ℚ
  uRadius : ℚ
deriving DecidableEq, Repr

/-- Value written to the strength uniform (`src/SplatViewer.ts:652`). -/
def strengthUniformValue (mode : AnimMode) (morph : ℚ) : ℚ :=
  if mode = AnimMode.none then 0 else 35/100 + 65/100 * morph

/-- One invocation of `SplatViewer.updateAnimationUniforms`
(`src/SplatViewer.ts:495-654`), as a pure state transformer.  `nowMs` is
`performance.now()`; `colorFollow`/`scaleFollow` stand for the transcendental
factors `1 - exp(-dt/0.18)` and `1 - exp(-dt/0.1)` of lines 629-630.  External
render calls (`setPointCloudModeEnabled`, `setSplatScale`) have no modelled
state beyond the mirrored fields. -/
def updateAnimationUniforms (nowMs colorFollow scaleFollow : ℚ)
    (s : ViewerState) : ViewerState :=
  if s.hasUniforms = false then s
  else
    let elapsedSeconds := (nowMs - s.animationStartTime) / 1000
    let dt := min (max ((nowMs - s.lastUniformUpdateTimeMs) / 1000) 0) (5/100)
    let md := morphDispersing s.animationMode elapsedSeconds
    let morph := md.1
    let dispersing := md.2
    let targetPointCloud0 :=
      gateTargetPointCloud s.animationMode dispersing morph s.pointCloudEnabled
    let inReveal := inModelRevealWindow s.animationMode dispersing morph
    let modelRevealBlend :=
      if inReveal then 1 - smoothstepQ 0 modelRevealStartMorph morph else 0
    let morphForScale := easeInOutCubic morph
    let scaleGate := smoothstepQ (3/100) (18/100) morph
    let reassemblyFill :=
      if dispersing = false then 1 - smoothstepQ 0 (28/100) morph else 0
    let targetScaleRaw :=
      if s.animationMode = AnimMode.none then 1
      else 1 + 22/100 * morphForScale * scaleGate + 26/100 * reassemblyFill
    let pointCloudBlend :=
      if s.animationMode = AnimMode.none then 0
      else if dispersing = true then
        smoothstepQ (pointCloudEnterMorph - 14/100) (pointCloudEnterMorph + 4/100) morph
      else smoothstepQ 0 (16/100) morph
    let convergence := 1 - smoothstepQ 0 (24/100) morph
    let modelGain := 1 - 8/100 * convergence
    let particleGain := 12/10 + 14/100 * convergence
    let colorGainRaw :=
      if s.animationMode = AnimMode.none then 1
      else mixQ modelGain particleGain pointCloudBlend
    let handoffToModel :=
      if s.animationMode = AnimMode.none then 1
      else 1 - smoothstepQ (pointCloudExitMorph + 2/100) (pointCloudExitMorph + 14/100) morph
    let targetScaleBase := mixQ targetScaleRaw 1 handoffToModel
    let targetScale :=
      if s.isMobileLike = true ∧ targetPointCloud0 = true then targetScaleBase * 118/100
      else targetScaleBase
    let colorGainTarget := colorGainRaw
    let targetPointCloud1 :=
      if s.hasSplat = true then
        overridePointCloud s.animationMode dispersing morph targetPointCloud0
      else targetPointCloud0
    let switching :=
      s.hasSplat = true ∧ s.pointCloudEnabled = true ∧ targetPointCloud1 = false
    let lumActive1 := if switching then true else s.luminanceBridgeActive
    let lumFrom1 := if switching then s.colorGainApplied else s.luminanceBridgeFrom
    let lumElapsed1 := if switching then 0 else s.luminanceBridgeElapsed
    let scaleActive1 := if switching then true else s.scaleBridgeActive
    let scaleFrom1 := if switching then min s.scaleApplied (9/10) else s.scaleBridgeFrom
    let scaleElapsed1 := if switching then 0 else s.scaleBridgeElapsed
    let pointCloudEnabled1 :=
      if s.hasSplat = true then targetPointCloud1 else s.pointCloudEnabled
    let scaleResult :=
      if inReveal then (mixQ modelRevealStartScale 1 modelRevealBlend, false, scaleElapsed1)
      else if s.animationMode = AnimMode.none then ((1 : ℚ), false, scaleElapsed1)
      else if scaleActive1 = true then
        let e := scaleElapsed1 + dt
        let pScale := smoothstepQ 0 scaleBridgeDurationSeconds e
        (mixQ scaleFrom1 1 pScale, if 1 ≤ pScale then false else true, e)
      else (targetScale, scaleActive1, scaleElapsed1)
    let gainResult :=
      if inReveal then
        (mixQ modelRevealStartGain 1 (easeOutCubic modelRevealBlend), false, lumElapsed1)
      else if s.animationMode = AnimMode.none then ((1 : ℚ), false, lumElapsed1)
      else if lumActive1 = true then
        let e := lumElapsed1 + dt
        let p := easeOutCubic (smoothstepQ 0 luminanceBridgeDurationSeconds e)
        (mixQ lumFrom1 1 p, if 1 ≤ p then false else true, e)
      else (colorGainTarget, lumActive1, lumElapsed1)
    let newColorGain := rateLimitColorGain s.colorGainApplied gainResult.1 colorFollow dt
    let newScale := s.scaleApplied + (scaleResult.1 - s.scaleApplied) * scaleFollow
    { s with
      lastUniformUpdateTimeMs := nowMs
      pointCloudEnabled := pointCloudEnabled1
      luminanceBridgeActive := gainResult.2.1
      luminanceBridgeFrom := lumFrom1
      luminanceBridgeElapsed := gainResult.2.2
      scaleBridgeActive := scaleResult.2.1
      scaleBridgeFrom := scaleFrom1
      scaleBridgeElapsed := scaleResult.2.2
      colorGainApplied := newColorGain
      scaleApplied := newScale
      uTime := elapsedSeconds
      uMode := animationModeToInt s.animationMode
      uMorph := morph
      uColorGain := newColorGain
      uStrength := strengthUniformValue s.animationMode morph
      uRadius := max s.sceneRadius (25/100) }

/-- `SplatViewer.applyAnimationStyle` (`src/SplatViewer.ts:480-493`): with a
splat mesh present and either mode `none` or a reset requested, the
representation is forced back to the assembled model. -/
def applyAnimationStyle (resetForTransition : Bool) (s : ViewerState) : ViewerState :=
  if s.hasSplat = true ∧ (s.animationMode = AnimMode.none ∨ resetForTransition = true)
  then { s with pointCloudEnabled := false }
  else s

/-- `SplatViewer.setAnimation` (`src/SplatViewer.ts:262-289`): normalize the
requested mode, restart the morph clock, reset blend state when the new mode
is `none`, then apply the style reset and run one uniform update. -/
def setAnimation (nowMs : ℚ) (modeStr : String) (colorFollow scaleFollow : ℚ)
    (s : ViewerState) : ViewerState :=
  let m := normalizeAnimationInput modeStr
  let s1 := { s with
    animationMode := m
    animationStartTime := nowMs
    lastUniformUpdateTimeMs := nowMs }
  let s2 :=
    if m = AnimMode.none then
      { s1 with
        colorGainApplied := 1
        scaleApplied := 1
        luminanceBridgeActive := false
        scaleBridgeActive := false }
    else s1
  updateAnimationUniforms nowMs colorFollow scaleFollow (applyAnimationStyle true s2)

/-- Rational 3-vectors for the displacement kernel. -/
def Vec3 : Type := ℚ × ℚ × ℚ

/-- Componentwise vector addition. -/
def vadd (a b : Vec3) : Vec3 :=
  (a.1 + b.1, a.2.1 + b.2.1, a.2.2 + b.2.2)

/-- Scalar multiplication of a vector. -/
def vsmul (c : ℚ) (v : Vec3) : Vec3 :=
  (c * v.1, c * v.2.1, c * v.2.2)

/-- Squared Euclidean norm. -/
def sqnorm (v : Vec3) : ℚ :=
  v.1 ^ 2 + v.2.1 ^ 2 + v.2.2 ^ 2

/-- Degeneracy guard added before normalization in the explode branch of the
shader kernel (`vec3(0.0001, 0.0001, 0.0001)`, `src/SplatViewer.ts:457`). -/
def epsGuard : Vec3 :=
  (1/10000, 1/10000, 1/10000)

/-- The vector the explode branch normalizes: `fromCenter + epsGuard`
(`src/SplatViewer.ts:457`). -/
def guardVec (fromCenter : Vec3) : Vec3 :=
  vadd fromCenter epsGuard

/-- Explode burst factor (`pow(max(sin(phase * 0.8), 0.0), 2.0)`,
`src/SplatViewer.ts:456`), with `sinPhase` standing for `sin(phase * 0.8)`. -/
def burstOf (sinPhase : ℚ) : ℚ :=
  (max sinPhase 0) ^ 2

/-- Composite kernel strength (`src/SplatViewer.ts:417-423`): the strength
uniform times the clamped morph times the motion gate
`smoothstep(0.12, 0.35, morph)`. -/
def kernelStrength (uStrength uMorph : ℚ) : ℚ :=
  let morph := clamp01 uMorph
  uStrength * morph * smoothstepQ (12/100) (35/100) morph

/-- Displacement added by the explode branch of the shader kernel
(`src/SplatViewer.ts:455-458`): `explodeDir * burst * strength * 0.28 * radius`,
where `explodeDir = normalize(fromCenter + epsGuard)` is passed in as `u`
(its normalization is characterized exactly in the explode theorem via the
squared norm of `guardVec`). -/
def explodeDisplacement (u : Vec3) (sinPhase uStrength uMorph radius : ℚ) : Vec3 :=
  vsmul (burstOf sinPhase * kernelStrength uStrength uMorph * (28/100) * radius) u

/-- Marker kinds (`FloatingBubbleEntry.kind`, `src/SplatViewer.ts:19`). -/
inductive BubbleKind where
  | text
  | plain
deriving DecidableEq, Repr

/-- Lifecycle- and occlusion-relevant fields of a `FloatingBubbleEntry`
(`src/SplatViewer.ts:17-38`).  The DOM element is identified by `id`;
`revealUntilMs = Option.none` models `Number.POSITIVE_INFINITY`.  Kinematic
fields (position, velocity, wind seeds) are not read by any claim and are
omitted. -/
structure Bubble where
  id : ℕ
  kind : BubbleKind
  spawnMs : ℚ
  lifeMs : ℚ
  revealUntilMs : Option ℚ
  overModel : Bool
  lastOverlapCheckMs : ℚ
deriving DecidableEq, Repr

/-- Marker-subsystem state (`floatingBubbles`, `activeTextBubble`,
`nextBubbleSpawnMs` of `src/SplatViewer.ts:81-115`).  `activeId` holds the id
of the `activeTextBubble` reference; `nextBubbleSpawnMs = Option.none` models
`Number.POSITIVE_INFINITY`. -/
structure BubbleState where
  bubbles : List Bubble
  activeId : Option ℕ
  nextBubbleSpawnMs : Option ℚ
deriving DecidableEq, Repr

/-- Marking applied by `dissipateBubble` to the entry itself
(`bubble.spawnMs = nowMs - bubble.lifeMs - 1`, `src/SplatViewer.ts:747`):
afterwards its life ratio exceeds 1 so the next tick removes it. -/
def dissipateMark (nowMs : ℚ) (b : Bubble) : Bubble :=
  { b with spawnMs := nowMs - b.lifeMs - 1 }

/-- `SplatViewer.dissipateBubble` (`src/SplatViewer.ts:742-751`): mark the
entry as expired and drop the active reference when it pointed at it.  The
decorative dust burst and DOM styling have no modelled state. -/
def dissipateBubble (nowMs : ℚ) (bid : ℕ) (s : BubbleState) : BubbleState :=
  { s with
    bubbles := s.bubbles.map fun b => if b.id = bid then dissipateMark nowMs b else b
    activeId := if s.activeId = some bid then none else s.activeId }

/-- First phase of `SplatViewer.activateTextBubble` (`src/SplatViewer.ts:768-771`):
if another marker is currently active, dissipate it and clear the active
reference, before the new marker is made active. -/
def activateDissipatePrev (nowMs : ℚ) (bid : ℕ) (s : BubbleState) : BubbleState :=
  match s.activeId with
  | some a => if a = bid then s else dissipateBubble nowMs a s
  | none => s

/-- `SplatViewer.activateTextBubble` (`src/SplatViewer.ts:766-783`): dissipate
any other active marker, make `bid` active with its reveal held open
indefinitely, dissipate every other live marker, and suspend spawning.
Faithful for states whose bubble ids are distinct (the source distinguishes
entries by object identity). -/
def activateTextBubble (nowMs : ℚ) (bid : ℕ) (s : BubbleState) : BubbleState :=
  let s1 := activateDissipatePrev nowMs bid s
  { bubbles := s1.bubbles.map fun b =>
      if b.id = bid then { b with revealUntilMs := none } else dissipateMark nowMs b
    activeId := some bid
    nextBubbleSpawnMs := none }

/-- A marker is in the ACTIVE state when the controller's active reference
points at it (`activeTextBubble === bubble`). -/
def isActiveBubble (s : BubbleState) (b : Bubble) : Prop :=
  s.activeId = some b.id

/-- Capacity table `SplatViewer.getActiveMaxFloatingBubbles`
(`src/SplatViewer.ts:1351-1358`). -/
def getActiveMaxFloatingBubbles (perf : PerfLevel) (isMobileLike : Bool) : ℕ :=
  if perf = PerfLevel.low then (if isMobileLike then 7 else 12)
  else (if isMobileLike then 11 else 18)

/-- Tail of `SplatViewer.spawnFloatingBubble` (`src/SplatViewer.ts:896-901`):
push the new entry, then evict the oldest entry (`Array.shift`) when the
capacity is exceeded. -/
def spawnPushAndEvict (bubbles : List Bubble) (b : Bubble) (cap : ℕ) : List Bubble :=
  let l := bubbles ++ [b]
  if cap < l.length then l.drop 1 else l

/-- Eviction loop of `SplatViewer.setPerformanceLevel`
(`src/SplatViewer.ts:315-319`): shift the oldest entries until the list fits
the new capacity (`drop` of the overflow equals the repeated `shift`). -/
def evictToCapacity (bubbles : List Bubble) (cap : ℕ) : List Bubble :=
  bubbles.drop (bubbles.length - cap)

/-- One RGBA readback result (`bubbleSamplePixel`, `src/SplatViewer.ts:111`). -/
structure GLPixel where
  r : ℕ
  g : ℕ
  b : ℕ
  a : ℕ
deriving DecidableEq, Repr

/-- The WebGL surface used by the occlusion probe: buffer extents and
`readPixels`, which either throws (`Except.error`) or fills the sample pixel. -/
structure GLContext where
  drawingBufferWidth : ℤ
  drawingBufferHeight : ℤ
  readPixels : ℤ → ℤ → Except Unit GLPixel

/-- `SplatViewer.readRenderAlpha` (`src/SplatViewer.ts:1198-1224`): clamp the
coordinates into the buffer, flip the row, and return the alpha byte; 0 when
the buffer is degenerate or `readPixels` throws. -/
def readRenderAlpha (gl : GLContext) (screenX screenY : ℚ) : ℕ :=
  if gl.drawingBufferWidth < 2 ∨ gl.drawingBufferHeight < 2 then 0
  else
    let clampedX := max 0 (min (gl.drawingBufferWidth - 1) (jsRound screenX))
    let clampedYTopLeft := max 0 (min (gl.drawingBufferHeight - 1) (jsRound screenY))
    let clampedYBottomLeft := gl.drawingBufferHeight - 1 - clampedYTopLeft
    match gl.readPixels clampedX clampedYBottomLeft with
    | Except.error _ => 0
    | Except.ok px => px.a

/-- Sample offset pattern of the occlusion probe (`src/SplatViewer.ts:1160-1186`):
5 samples on the low tier or on mobile, 9 on desktop/high. -/
def probeOffsets (perf : PerfLevel) (isMobileLike : Bool) (r : ℚ) : List (ℚ × ℚ) :=
  if perf = PerfLevel.low then [(0, 0), (r, 0), (-r, 0), (0, r), (0, -r)]
  else if isMobileLike then [(0, 0), (r, 0), (-r, 0), (0, r), (0, -r)]
  else [(0, 0), (r, 0), (-r, 0), (0, r), (0, -r),
        (r * 72/100, r * 72/100), (r * 72/100, -(r * 72/100)),
        (-(r * 72/100), r * 72/100), (-(r * 72/100), -(r * 72/100))]

/-- `SplatViewer.isModelPixelCovered` (`src/SplatViewer.ts:1142-1196`):
`Option.none` for `glOpt` models a context without usable `readPixels`.  The
probe is total: any failure yields `false` (fail-open), never an exception. -/
def isModelPixelCovered (glOpt : Option GLContext) (perf : PerfLevel)
    (isMobileLike : Bool) (clientW clientH screenX screenY sampleRadiusPx : ℚ) : Bool :=
  match glOpt with
  | none => false
  | some gl =>
    if gl.drawingBufferWidth < 2 ∨ gl.drawingBufferHeight < 2 then false
    else
      let clientWidth := max clientW 1
      let clientHeight := max clientH 1
      let baseX := screenX / clientWidth * (gl.drawingBufferWidth : ℚ)
      let baseY := screenY / clientHeight * (gl.drawingBufferHeight : ℚ)
      let r := max 1 (sampleRadiusPx * ((gl.drawingBufferWidth : ℚ) / clientWidth))
      (probeOffsets perf isMobileLike r).any fun off =>
        decide (14 < readRenderAlpha gl (baseX + off.1) (baseY + off.2))

/-- Base occlusion re-probe interval (`bubbleOverlapCheckIntervalDesktopMs` /
`bubbleOverlapCheckIntervalMobileMs`, `src/SplatViewer.ts:96-97`, selected at
`src/SplatViewer.ts:1027-1029`). -/
def overlapCheckIntervalMs (isMobileLike : Bool) : ℚ :=
  if isMobileLike then 120 else 36

/-- Effective re-probe interval (`src/SplatViewer.ts:1030-1031`): the base
interval times 1.9 under the low-performance tier. -/
def activeOverlapCheckIntervalMs (perf : PerfLevel) (isMobileLike : Bool) : ℚ :=
  if perf = PerfLevel.low then overlapCheckIntervalMs isMobileLike * 19/10
  else overlapCheckIntervalMs isMobileLike

/-- Per-marker occlusion throttle (`src/SplatViewer.ts:1032-1035`): re-probe
only when the effective interval has elapsed since the marker's last probe,
otherwise reuse the cached `overModel`. -/
def bubbleProbeStep (nowMs : ℚ) (glOpt : Option GLContext) (perf : PerfLevel)
    (isMobileLike : Bool) (clientW clientH px py sampleRadiusPx : ℚ)
    (b : Bubble) : Bubble :=
  if activeOverlapCheckIntervalMs perf isMobileLike ≤ nowMs - b.lastOverlapCheckMs then
    { b with
      overModel := isModelPixelCovered glOpt perf isMobileLike clientW clientH px py sampleRadiusPx
      lastOverlapCheckMs := nowMs }
  else b

/-- Concrete viewer state used by witnesses and counterexamples: a loaded
model (uniforms and splat mesh present), desktop device, `zwave` mode, both
bridges armed mid-ramp. -/
def exViewerState : ViewerState where
  hasUniforms := true
  hasSplat := true
  isMobileLike := false
  animationMode := AnimMode.zwave
  animationStartTime := 0
  lastUniformUpdateTimeMs := 1990
  pointCloudEnabled := false
  luminanceBridgeActive := true
  luminanceBridgeFrom := 8/10
  luminanceBridgeElapsed := 5/100
  scaleBridgeActive := true
  scaleBridgeFrom := 85/100
  scaleBridgeElapsed := 5/100
  colorGainApplied := 9/10
  scaleApplied := 95/100
  sceneRadius := 1
  uTime := 0
  uMode := 1
  uMorph := 0
  uColorGain := 1
  uStrength := 1
  uRadius := 1

/-- Concrete text marker used by witnesses (id 0, alive at time 2000). -/
def exBubbleA : Bubble where
  id := 0
  kind := BubbleKind.text
  spawnMs := 0
  lifeMs := 4000
  revealUntilMs := some 0
  overModel := false
  lastOverlapCheckMs := 0

/-- Second concrete text marker used by witnesses (id 1). -/
def exBubbleB : Bubble where
  id := 1
  kind := BubbleKind.text
  spawnMs := 100
  lifeMs := 4000
  revealUntilMs := some 0
  overModel := false
  lastOverlapCheckMs := 0

/-- Concrete marker state with marker 0 ACTIVE, used by witnesses. -/
def exBubbleState : BubbleState where
  bubbles := [exBubbleA, exBubbleB]
  activeId := some 0
  nextBubbleSpawnMs := some 500

/-- Concrete GL context whose `readPixels` always throws, used by witnesses. -/
def exThrowGL : GLContext where
  drawingBufferWidth := 300
  drawingBufferHeight := 200
  readPixels := fun _ _ => Except.error ()

/-- The state reached from `exViewerState` by the straight-line part of
`setAnimation 2000 "swirl"`: mode `swirl`, clock restarted at 2000, style reset
applied; the bridges are untouched because the new mode is not `none`. -/
def exSwirlState : ViewerState where
  hasUniforms := true
  hasSplat := true
  isMobileLike := false
  animationMode := AnimMode.swirl
  animationStartTime := 2000
  lastUniformUpdateTimeMs := 2000
  pointCloudEnabled := false
  luminanceBridgeActive := true
  luminanceBridgeFrom := 8/10
  luminanceBridgeElapsed := 5/100
  scaleBridgeActive := true
  scaleBridgeFrom := 85/100
  scaleBridgeElapsed := 5/100
  colorGainApplied := 9/10
  scaleApplied := 95/100
  sceneRadius := 1
  uTime := 0
  uMode := 1
  uMorph := 0
  uColorGain := 1
  uStrength := 1
  uRadius := 1

/-- Bounds of the `[0,1]` clamp. -/
theorem clamp01_bounds (t : ℚ) : 0 ≤ clamp01 t ∧ clamp01 t ≤ 1 :=
  ⟨le_max_left 0 _, max_le (by norm_num) (min_le_left 1 t)⟩

/-- The cubic ease always lands in `[0,1]`. -/
theorem easeInOutCubic_bounds (t : ℚ) :
    0 ≤ easeInOutCubic t ∧ easeInOutCubic t ≤ 1 := by
  obtain ⟨hx0, hx1⟩ := clamp01_bounds t
  simp only [easeInOutCubic]
  set x := clamp01 t with hxdef
  split_ifs with h
  · constructor
    · have := mul_nonneg (mul_nonneg hx0 hx0) hx0
      nlinarith
    · nlinarith [mul_nonneg (mul_nonneg hx0 hx0) hx0, mul_nonneg hx0 hx0]
  · push_neg at h
    have hy0 : (0 : ℚ) ≤ -2 * x + 2 := by linarith
    have hy1 : -2 * x + 2 ≤ 1 := by linarith
    have h3 : (-2 * x + 2) ^ 3 ≤ 1 := pow_le_one₀ hy0 hy1
    have h4 : (0 : ℚ) ≤ (-2 * x + 2) ^ 3 := pow_nonneg hy0 3
    constructor <;> linarith

/-- The loop phase is invariant under shifting elapsed time by one loop
(nonnegative elapsed time, as produced by the monotone clock). -/
theorem jsPhase_add_loop {t : ℚ} (ht : 0 ≤ t) :
    jsPhase (t + morphLoopSeconds) = jsPhase t := by
  unfold jsPhase jsMod jsTrunc morphLoopSeconds
  have h1 : (0 : ℚ) ≤ t / (32/10) := by positivity
  have h2 : (t + 32/10) / (32/10) = t / (32/10) + 1 := by ring
  rw [h2, if_pos h1, if_pos (by linarith)]
  rw [Int.floor_add_one]
  push_cast
  ring

/-- The morph scalar is invariant under shifting elapsed time by one loop. -/
theorem morphOf_add_loop {t : ℚ} (ht : 0 ≤ t) :
    morphOf (t + morphLoopSeconds) = morphOf t := by
  unfold morphOf triangleOf
  rw [jsPhase_add_loop ht]

/-- C1: for every elapsed time `t ≥ 0` and every mode other than `none`, the per-tick
morph scalar equals `easeInOutCubic` of the triangle wave of the loop phase; it is
periodic with period `morphLoopSeconds = 3.2` seconds, vanishes at `t = 0`, equals 1
exactly at `t = 1.6`, and always lies in `[0, 1]`. -/
theorem morph_clock_spec (mode : AnimMode) (t : ℚ)
    (hm : mode ≠ AnimMode.none) (ht : 0 ≤ t) :
    (morphDispersing mode t).1 = easeInOutCubic (triangleOf t)
    ∧ (morphDispersing mode (t + morphLoopSeconds)).1 = (morphDispersing mode t).1
    ∧ morphLoopSeconds = 32/10
    ∧ (morphDispersing mode 0).1 = 0
    ∧ (morphDispersing mode (16/10)).1 = 1
    ∧ 0 ≤ (morphDispersing mode t).1
    ∧ (morphDispersing mode t).1 ≤ 1 := by
  have hmd : ∀ u : ℚ, (morphDispersing mode u).1 = morphOf u := by
    intro u
    simp [morphDispersing, hm]
  refine ⟨?_, ?_, rfl, ?_, ?_, ?_, ?_⟩
  · rw [hmd]
    rfl
  · rw [hmd, hmd, morphOf_add_loop ht]
  · rw [hmd]
    norm_num [morphOf, triangleOf, jsPhase, jsMod, jsTrunc, morphLoopSeconds,
      easeInOutCubic, clamp01]
  · rw [hmd]
    norm_num [morphOf, triangleOf, jsPhase, jsMod, jsTrunc, morphLoopSeconds,
      easeInOutCubic, clamp01]
  · rw [hmd]
    exact (easeInOutCubic_bounds _).1
  · rw [hmd]
    exact (easeInOutCubic_bounds _).2

/-- Witness for `morph_clock_spec` at mode `swirl`, `t = 0.8` s. -/
theorem morph_clock_spec_witness :
    0 ≤ (morphDispersing AnimMode.swirl (4/5)).1
    ∧ (morphDispersing AnimMode.swirl (4/5)).1 ≤ 1 :=
  ⟨(morph_clock_spec AnimMode.swirl (4/5) (by decide) (by norm_num)).2.2.2.2.2.1,
   (morph_clock_spec AnimMode.swirl (4/5) (by decide) (by norm_num)).2.2.2.2.2.2⟩

/-- Behaviour of the composed per-tick gate (first chain plus splat-mesh
override) in the three regimes named by the spec. -/
theorem gate_override_spec (mode : AnimMode) (dispersing : Bool) (morph : ℚ)
    (prev : Bool) (hm : mode ≠ AnimMode.none) :
    (dispersing = true → pointCloudEnterMorph ≤ morph →
      overridePointCloud mode dispersing morph
        (gateTargetPointCloud mode dispersing morph prev) = true)
    ∧ (dispersing = false → morph ≤ pointCloudExitMorph →
      overridePointCloud mode dispersing morph
        (gateTargetPointCloud mode dispersing morph prev) = false)
    ∧ (dispersing = false → morph ≤ modelRevealStartMorph →
      overridePointCloud mode dispersing morph
        (gateTargetPointCloud mode dispersing morph prev) = false) := by
  refine ⟨?_, ?_, ?_⟩ <;> intro hd hmor <;> subst hd
  · simp [overridePointCloud, inModelRevealWindow, gateTargetPointCloud, hm, hmor]
  · have hrev : morph ≤ modelRevealStartMorph := by
      unfold pointCloudExitMorph at hmor
      unfold modelRevealStartMorph
      linarith
    simp [overridePointCloud, inModelRevealWindow, hm, hrev]
  · simp [overridePointCloud, inModelRevealWindow, hm, hmor]

/-- The point-cloud flag after one uniform update, with a loaded model. -/
theorem updateAnimationUniforms_pointCloud (nowMs colorFollow scaleFollow : ℚ)
    (s : ViewerState) (hu : s.hasUniforms = true) (hs : s.hasSplat = true) :
    (updateAnimationUniforms nowMs colorFollow scaleFollow s).pointCloudEnabled
      = overridePointCloud s.animationMode
          (morphDispersing s.animationMode ((nowMs - s.animationStartTime) / 1000)).2
          (morphDispersing s.animationMode ((nowMs - s.animationStartTime) / 1000)).1
          (gateTargetPointCloud s.animationMode
            (morphDispersing s.animationMode ((nowMs - s.animationStartTime) / 1000)).2
            (morphDispersing s.animationMode ((nowMs - s.animationStartTime) / 1000)).1
            s.pointCloudEnabled) := by
  rw [updateAnimationUniforms, hu]
  simp only [Bool.true_eq_false, if_false, hs, if_true, ite_true]

/-- C2: per tick with a loaded model and mode other than `none`: while dispersing the
representation switches to point-cloud once `morph ≥ 0.38`; while reassembling it
switches back once `morph ≤ 0.02`; and throughout the reveal window (reassembling
with `morph ≤ 0.34`) the point-cloud flag is forced off regardless of the exit
threshold. -/
theorem render_mode_gate_spec (nowMs colorFollow scaleFollow : ℚ) (s : ViewerState)
    (hu : s.hasUniforms = true) (hs : s.hasSplat = true)
    (hm : s.animationMode ≠ AnimMode.none) :
    (dispersingOf ((nowMs - s.animationStartTime) / 1000) = true →
      pointCloudEnterMorph ≤ morphOf ((nowMs - s.animationStartTime) / 1000) →
      (updateAnimationUniforms nowMs colorFollow scaleFollow s).pointCloudEnabled = true)
    ∧ (dispersingOf ((nowMs - s.animationStartTime) / 1000) = false →
      morphOf ((nowMs - s.animationStartTime) / 1000) ≤ pointCloudExitMorph →
      (updateAnimationUniforms nowMs colorFollow scaleFollow s).pointCloudEnabled = false)
    ∧ (dispersingOf ((nowMs - s.animationStartTime) / 1000) = false →
      morphOf ((nowMs - s.animationStartTime) / 1000) ≤ modelRevealStartMorph →
      (updateAnimationUniforms nowMs colorFollow scaleFollow s).pointCloudEnabled = false) := by
  have he : morphDispersing s.animationMode ((nowMs - s.animationStartTime) / 1000)
      = (morphOf ((nowMs - s.animationStartTime) / 1000),
         dispersingOf ((nowMs - s.animationStartTime) / 1000)) := by
    simp [morphDispersing, hm]
  rw [updateAnimationUniforms_pointCloud nowMs colorFollow scaleFollow s hu hs, he]
  exact gate_override_spec s.animationMode
    (dispersingOf ((nowMs - s.animationStartTime) / 1000))
    (morphOf ((nowMs - s.animationStartTime) / 1000)) s.pointCloudEnabled hm

/-- Witness for `render_mode_gate_spec`: at `t = 0.8` s the clock is dispersing with
`morph = 1/2 ≥ 0.38`, so the tick enables the point-cloud representation. -/
theorem render_mode_gate_spec_witness :
    (updateAnimationUniforms 800 0 0 exViewerState).pointCloudEnabled = true :=
  (render_mode_gate_spec 800 0 0 exViewerState rfl rfl (by decide)).1
    (by norm_num [dispersingOf, jsPhase, jsMod, jsTrunc, morphLoopSeconds, exViewerState])
    (by norm_num [morphOf, triangleOf, jsPhase, jsMod, jsTrunc, morphLoopSeconds,
      easeInOutCubic, clamp01, pointCloudEnterMorph, exViewerState])

/-- The rate limiter moves the applied gain by at most `0.35·dt` upward and at most
`1.8·dt` downward, for any desired value and any follow factor. -/
theorem rateLimitColorGain_bounds (applied desired colorFollow dt : ℚ)
    (hdt : 0 ≤ dt) :
    rateLimitColorGain applied desired colorFollow dt - applied
      ≤ colorRisePerSecond * dt
    ∧ applied - rateLimitColorGain applied desired colorFollow dt
      ≤ colorFallPerSecond * dt := by
  simp only [rateLimitColorGain, colorRisePerSecond, colorFallPerSecond]
  split_ifs with h1 h2
  · constructor <;> linarith
  · constructor <;> linarith
  · push_neg at h1 h2
    constructor <;> linarith

/-- The applied color gain after one uniform update is the rate limiter applied to
some desired value, whenever uniforms are installed. -/
theorem updateAnimationUniforms_colorGain_shape (nowMs colorFollow scaleFollow : ℚ)
    (s : ViewerState) (hu : s.hasUniforms = true) :
    ∃ desired : ℚ,
      (updateAnimationUniforms nowMs colorFollow scaleFollow s).colorGainApplied
        = rateLimitColorGain s.colorGainApplied desired colorFollow
            (min (max ((nowMs - s.lastUniformUpdateTimeMs) / 1000) 0) (5/100)) := by
  rw [updateAnimationUniforms, hu]
  simp only [Bool.true_eq_false, if_false]
  exact ⟨_, rfl⟩

/-- C3: across one tick the applied color gain rises by at most `0.35·dt` and falls
by at most `1.8·dt`, where `dt` is the tick delta clamped to `[0, 0.05]` seconds
(`src/SplatViewer.ts:500`). -/
theorem color_gain_rate_limit (nowMs colorFollow scaleFollow : ℚ) (s : ViewerState) :
    (updateAnimationUniforms nowMs colorFollow scaleFollow s).colorGainApplied
        - s.colorGainApplied
      ≤ colorRisePerSecond * (min (max ((nowMs - s.lastUniformUpdateTimeMs) / 1000) 0) (5/100))
    ∧ s.colorGainApplied
        - (updateAnimationUniforms nowMs colorFollow scaleFollow s).colorGainApplied
      ≤ colorFallPerSecond * (min (max ((nowMs - s.lastUniformUpdateTimeMs) / 1000) 0) (5/100)) := by
  have hdt : 0 ≤ min (max ((nowMs - s.lastUniformUpdateTimeMs) / 1000) 0) (5/100) :=
    le_min (le_max_right _ _) (by norm_num)
  by_cases hu : s.hasUniforms = true
  · obtain ⟨desired, hshape⟩ :=
      updateAnimationUniforms_colorGain_shape nowMs colorFollow scaleFollow s hu
    rw [hshape]
    exact rateLimitColorGain_bounds s.colorGainApplied desired colorFollow _ hdt
  · have hfalse : s.hasUniforms = false := by
      revert hu
      cases s.hasUniforms <;> simp
    rw [updateAnimationUniforms, hfalse]
    simp only [if_true]
    constructor
    · have : 0 ≤ colorRisePerSecond *
          (min (max ((nowMs - s.lastUniformUpdateTimeMs) / 1000) 0) (5/100)) := by
        unfold colorRisePerSecond
        positivity
      linarith
    · have : 0 ≤ colorFallPerSecond *
          (min (max ((nowMs - s.lastUniformUpdateTimeMs) / 1000) 0) (5/100)) := by
        unfold colorFallPerSecond
        positivity
      linarith

/-- C4: in explode mode with `sceneRadius = 1`, at any time where `sin(phase·0.8) = 1`
the burst factor is exactly 1 and the explode term displaces the element along the
unit outward direction `u = normalize(fromCenter + epsGuard)` by exactly
`burst · strength · 0.28`, with `strength = (0.35 + 0.65·morph) · morph ·
smoothstep(0.12, 0.35, morph)`; `u` being that normalization is characterized
exactly by `L > 0`, `L² = ‖guardVec fromCenter‖²` and `u = (1/L) · guardVec
fromCenter`. -/
theorem explode_kernel_spec (mode : AnimMode) (fromCenter u : Vec3)
    (L sinPhase m : ℚ) (hmode : mode ≠ AnimMode.none) (hsin : sinPhase = 1)
    (hL : 0 < L) (hLsq : L ^ 2 = sqnorm (guardVec fromCenter))
    (hu : u = vsmul (1/L) (guardVec fromCenter)) (hm0 : 0 ≤ m) (hm1 : m ≤ 1) :
    burstOf sinPhase = 1
    ∧ strengthUniformValue mode m = 35/100 + 65/100 * m
    ∧ explodeDisplacement u sinPhase (strengthUniformValue mode m) m 1
        = vsmul (strengthUniformValue mode m * m * smoothstepQ (12/100) (35/100) m
            * (28/100)) u
    ∧ sqnorm u = 1
    ∧ sqnorm (explodeDisplacement u sinPhase (strengthUniformValue mode m) m 1)
        = (strengthUniformValue mode m * m * smoothstepQ (12/100) (35/100) m
            * (28/100)) ^ 2 := by
  have hburst : burstOf sinPhase = 1 := by
    rw [hsin]
    norm_num [burstOf]
  have hclamp : clamp01 m = m := by
    unfold clamp01
    rw [min_eq_right hm1, max_eq_right hm0]
  have hdisp : explodeDisplacement u sinPhase (strengthUniformValue mode m) m 1
      = vsmul (strengthUniformValue mode m * m * smoothstepQ (12/100) (35/100) m
          * (28/100)) u := by
    unfold explodeDisplacement kernelStrength
    rw [hburst, hclamp]
    unfold vsmul
    refine Prod.ext ?_ (Prod.ext ?_ ?_) <;> ring
  have hL0 : L ≠ 0 := ne_of_gt hL
  have hunorm : sqnorm u = 1 := by
    subst hu
    unfold sqnorm at hLsq
    unfold sqnorm vsmul
    field_simp
    linarith [hLsq]
  refine ⟨hburst, by simp [strengthUniformValue, hmode], hdisp, hunorm, ?_⟩
  rw [hdisp]
  unfold sqnorm vsmul
  unfold sqnorm at hunorm
  nlinarith [hunorm]

/-- Witness for `explode_kernel_spec`: `fromCenter = (0.0002, 0.0003, -0.0001)`,
whose guarded vector `(0.0003, 0.0004, 0)` has exact norm `L = 0.0005`, unit
direction `u = (3/5, 4/5, 0)`, at `morph = 1/2`. -/
theorem explode_kernel_spec_witness :
    sqnorm ((3/5 : ℚ), (4/5 : ℚ), (0 : ℚ)) = 1 :=
  (explode_kernel_spec AnimMode.explode (2/10000, 3/10000, -(1/10000))
    (3/5, 4/5, 0) (5/10000) 1 (1/2) (by decide) rfl (by norm_num)
    (by norm_num [sqnorm, guardVec, vadd, epsGuard])
    (by norm_num [vsmul, guardVec, vadd, epsGuard]) (by norm_num)
    (by norm_num)).2.2.2.1

/-- C5: the ACTIVE state is exclusive.  After activating marker `bid` while marker
`a ≠ bid` was ACTIVE: only `bid` is ACTIVE afterwards (at most one marker is ever
ACTIVE); and already in the activation's first phase — before `bid` becomes
ACTIVE — the previously active marker is marked dissipating (its remaining life
is exhausted: `lifeMs < now - spawnMs`) and no marker is ACTIVE. -/
theorem active_marker_exclusive (nowMs : ℚ) (bid a : ℕ) (s : BubbleState)
    (ha : s.activeId = some a) (hne : a ≠ bid) :
    (activateTextBubble nowMs bid s).activeId = some bid
    ∧ (∀ b1 b2 : Bubble, isActiveBubble (activateTextBubble nowMs bid s) b1 →
        isActiveBubble (activateTextBubble nowMs bid s) b2 → b1.id = b2.id)
    ∧ (activateDissipatePrev nowMs bid s).activeId = none
    ∧ (∀ b ∈ (activateDissipatePrev nowMs bid s).bubbles, b.id = a →
        b.lifeMs < nowMs - b.spawnMs)
    ∧ (∀ b ∈ (activateTextBubble nowMs bid s).bubbles, b.id ≠ bid →
        b.lifeMs < nowMs - b.spawnMs) := by
  have hphase1 : activateDissipatePrev nowMs bid s = dissipateBubble nowMs a s := by
    unfold activateDissipatePrev
    rw [ha]
    simp [hne]
  refine ⟨rfl, ?_, ?_, ?_, ?_⟩
  · intro b1 b2 h1 h2
    unfold isActiveBubble activateTextBubble at h1 h2
    simp only [Option.some_inj] at h1 h2
    rw [← h1, ← h2]
  · rw [hphase1]
    unfold dissipateBubble
    simp [ha]
  · intro b hb hid
    rw [hphase1] at hb
    unfold dissipateBubble at hb
    simp only [List.mem_map] at hb
    obtain ⟨x, hx, hfx⟩ := hb
    by_cases hxa : x.id = a
    · rw [if_pos hxa] at hfx
      rw [← hfx]
      unfold dissipateMark
      simp only
      linarith
    · rw [if_neg hxa] at hfx
      rw [← hfx] at hid
      exact absurd hid hxa
  · intro b hb hid
    unfold activateTextBubble at hb
    simp only [List.mem_map] at hb
    obtain ⟨x, hx, hfx⟩ := hb
    by_cases hxb : x.id = bid
    · rw [if_pos hxb] at hfx
      rw [← hfx] at hid
      exact absurd hxb hid
    · rw [if_neg hxb] at hfx
      rw [← hfx]
      unfold dissipateMark
      simp only
      linarith

/-- Witness for `active_marker_exclusive`: activating marker 1 while marker 0 is
ACTIVE in the concrete two-marker state. -/
theorem active_marker_exclusive_witness :
    (activateTextBubble 2000 1 exBubbleState).activeId = some 1 :=
  (active_marker_exclusive 2000 1 0 exBubbleState rfl (by decide)).1

/-- C6: the live marker count never exceeds the tier/device capacity: the capacity
table is 18 desktop-high, 11 mobile-high, 12 desktop-low, 7 mobile-low; a spawn
followed by its oldest-first eviction preserves the bound from tick to tick; and the
eviction loop of a performance-level change enforces the bound unconditionally. -/
theorem marker_capacity_bound (perf : PerfLevel) (isMobileLike : Bool)
    (l : List Bubble) (b : Bubble)
    (h : l.length ≤ getActiveMaxFloatingBubbles perf isMobileLike) :
    getActiveMaxFloatingBubbles PerfLevel.high false = 18
    ∧ getActiveMaxFloatingBubbles PerfLevel.high true = 11
    ∧ getActiveMaxFloatingBubbles PerfLevel.low false = 12
    ∧ getActiveMaxFloatingBubbles PerfLevel.low true = 7
    ∧ (spawnPushAndEvict l b (getActiveMaxFloatingBubbles perf isMobileLike)).length
        ≤ getActiveMaxFloatingBubbles perf isMobileLike
    ∧ (∀ (l2 : List Bubble) (cap : ℕ), (evictToCapacity l2 cap).length ≤ cap) := by
  refine ⟨rfl, rfl, rfl, rfl, ?_, ?_⟩
  · simp only [spawnPushAndEvict]
    split_ifs with hcap
    · simp only [List.length_drop, List.length_append, List.length_singleton]
      omega
    · simp only [List.length_append, List.length_singleton] at hcap ⊢
      omega
  · intro l2 cap
    unfold evictToCapacity
    simp only [List.length_drop]
    omega

/-- Witness for `marker_capacity_bound`: a two-marker desktop-high list stays within
capacity after spawning a third marker. -/
theorem marker_capacity_bound_witness :
    (spawnPushAndEvict [exBubbleA, exBubbleB] exBubbleA
        (getActiveMaxFloatingBubbles PerfLevel.high false)).length
      ≤ getActiveMaxFloatingBubbles PerfLevel.high false :=
  (marker_capacity_bound PerfLevel.high false [exBubbleA, exBubbleB] exBubbleA
    (by decide)).2.2.2.2.1

/-- With a readback that always throws, every alpha read returns 0. -/
theorem readRenderAlpha_throwing (gl : GLContext)
    (hthrow : ∀ x y, gl.readPixels x y = Except.error ()) (x y : ℚ) :
    readRenderAlpha gl x y = 0 := by
  unfold readRenderAlpha
  split_ifs with h
  · rfl
  · simp [hthrow]

/-- C7: the occlusion probe fails open.  With no usable GL context, or with a
`readPixels` that throws on every call, `isModelPixelCovered` reports `false`
(marker not covered); being a total `Bool`-valued function, no error reaches the
caller. -/
theorem occlusion_probe_fail_open (perf : PerfLevel) (isMobileLike : Bool)
    (clientW clientH screenX screenY sampleRadiusPx : ℚ) :
    isModelPixelCovered none perf isMobileLike clientW clientH
        screenX screenY sampleRadiusPx = false
    ∧ ∀ gl : GLContext, (∀ x y, gl.readPixels x y = Except.error ()) →
        isModelPixelCovered (some gl) perf isMobileLike clientW clientH
          screenX screenY sampleRadiusPx = false := by
  refine ⟨rfl, ?_⟩
  intro gl hthrow
  simp only [isModelPixelCovered]
  split_ifs with h
  · rfl
  · simp only [List.any_eq_false]
    intro off hoff
    simp [readRenderAlpha_throwing gl hthrow]

/-- Witness for `occlusion_probe_fail_open`: concrete throwing context, desktop
high tier, a 800×600 surface and a centre probe. -/
theorem occlusion_probe_fail_open_witness :
    isModelPixelCovered (some exThrowGL) PerfLevel.high false 800 600 400 300 14
      = false :=
  (occlusion_probe_fail_open PerfLevel.high false 800 600 400 300 14).2
    exThrowGL (fun _ _ => rfl)

set_option maxHeartbeats 2000000 in
/-- C8 (code bug): the aliases themselves resolve as claimed — all eleven table
keys map to their modes after case-insensitive trim, `"Z-Wave"` reads back as
the wave mode and `"bogus"` as `none` — but the code does NOT map every
unrecognized input to `none`: `map[normalized] || "none"`
(`src/SplatViewer.ts:278`) reads through the prototype chain, so the
unrecognized lowercase inputs `"constructor"` and `"__proto__"` hit truthy
values inherited from `Object.prototype` and `animationMode` is assigned that
non-`AnimMode` junk instead of `"none"`, violating the declared `AnimMode`
union type and the spec's "Unrecognized input → none". -/
theorem animation_alias_proto_leak :
    normalizeAnimationInput "Z-Wave" = AnimMode.zwave
    ∧ normalizeAnimationInput "bogus" = AnimMode.none
    ∧ normalizeAnimationInput "" = AnimMode.none
    ∧ normalizeAnimationInput " Breathe " = AnimMode.breath
    ∧ setAnimationAliasMap "none" = AnimMode.none
    ∧ setAnimationAliasMap "off" = AnimMode.none
    ∧ setAnimationAliasMap "z wave" = AnimMode.zwave
    ∧ setAnimationAliasMap "z_wave" = AnimMode.zwave
    ∧ setAnimationAliasMap "z-wave" = AnimMode.zwave
    ∧ setAnimationAliasMap "zwave" = AnimMode.zwave
    ∧ setAnimationAliasMap "swirl" = AnimMode.swirl
    ∧ setAnimationAliasMap "noise" = AnimMode.noise
    ∧ setAnimationAliasMap "breath" = AnimMode.breath
    ∧ setAnimationAliasMap "breathe" = AnimMode.breath
    ∧ setAnimationAliasMap "explode" = AnimMode.explode
    ∧ "constructor" ∉ aliasKeys
    ∧ "__proto__" ∉ aliasKeys
    ∧ normalizeAnimationInput "constructor" = AnimMode.protoJunk "constructor"
    ∧ normalizeAnimationInput "__proto__" = AnimMode.protoJunk "__proto__"
    ∧ normalizeAnimationInput "constructor" ≠ AnimMode.none
    ∧ normalizeAnimationInput "__proto__" ≠ AnimMode.none := by
  decide

/-- One uniform update never touches the morph-clock start time. -/
theorem updateAnimationUniforms_startTime (nowMs colorFollow scaleFollow : ℚ)
    (s : ViewerState) :
    (updateAnimationUniforms nowMs colorFollow scaleFollow s).animationStartTime
      = s.animationStartTime := by
  rw [updateAnimationUniforms]
  split_ifs <;> rfl

/-- Under mode `none` with neutral blend state already in place, one uniform
update keeps both bridges off and the gain/scale at 1. -/
theorem updateAnimationUniforms_none (nowMs colorFollow scaleFollow : ℚ)
    (s : ViewerState) (hmode : s.animationMode = AnimMode.none)
    (hlum : s.luminanceBridgeActive = false)
    (hscaleB : s.scaleBridgeActive = false)
    (hgain : s.colorGainApplied = 1) (hscale : s.scaleApplied = 1)
    (hlast : s.lastUniformUpdateTimeMs = nowMs) :
    (updateAnimationUniforms nowMs colorFollow scaleFollow s).luminanceBridgeActive
        = false
    ∧ (updateAnimationUniforms nowMs colorFollow scaleFollow s).scaleBridgeActive
        = false
    ∧ (updateAnimationUniforms nowMs colorFollow scaleFollow s).colorGainApplied = 1
    ∧ (updateAnimationUniforms nowMs colorFollow scaleFollow s).scaleApplied = 1 := by
  by_cases hu : s.hasUniforms = true
  · rw [updateAnimationUniforms, hu]
    simp only [Bool.true_eq_false, if_false, hmode, hlast, hgain, hscale]
    norm_num [inModelRevealWindow, rateLimitColorGain]
  · have hu' : s.hasUniforms = false := by
      revert hu
      cases s.hasUniforms <;> simp
    rw [updateAnimationUniforms, hu']
    simp [hlum, hscaleB, hgain, hscale]

/-- The style reset only ever touches `pointCloudEnabled`. -/
theorem applyAnimationStyle_fields (resetForTransition : Bool) (s : ViewerState) :
    (applyAnimationStyle resetForTransition s).animationMode = s.animationMode
    ∧ (applyAnimationStyle resetForTransition s).animationStartTime = s.animationStartTime
    ∧ (applyAnimationStyle resetForTransition s).lastUniformUpdateTimeMs
        = s.lastUniformUpdateTimeMs
    ∧ (applyAnimationStyle resetForTransition s).luminanceBridgeActive
        = s.luminanceBridgeActive
    ∧ (applyAnimationStyle resetForTransition s).scaleBridgeActive = s.scaleBridgeActive
    ∧ (applyAnimationStyle resetForTransition s).colorGainApplied = s.colorGainApplied
    ∧ (applyAnimationStyle resetForTransition s).scaleApplied = s.scaleApplied := by
  unfold applyAnimationStyle
  split_ifs <;> exact ⟨rfl, rfl, rfl, rfl, rfl, rfl, rfl⟩

/-- A tick preserves an active luminance bridge when the mode is not `none`, the
clock is dispersing (no reveal window), no representation switch is possible
(point-cloud already off), and the bridge ramp is not yet complete. -/
theorem updateAnimationUniforms_lum_active (nowMs colorFollow scaleFollow : ℚ)
    (s : ViewerState) (hu : s.hasUniforms = true)
    (hm : s.animationMode ≠ AnimMode.none)
    (hdisp : dispersingOf ((nowMs - s.animationStartTime) / 1000) = true)
    (hpc : s.pointCloudEnabled = false)
    (hlum : s.luminanceBridgeActive = true)
    (hp : easeOutCubic (smoothstepQ 0 luminanceBridgeDurationSeconds
        (s.luminanceBridgeElapsed
          + min (max ((nowMs - s.lastUniformUpdateTimeMs) / 1000) 0) (5/100))) < 1) :
    (updateAnimationUniforms nowMs colorFollow scaleFollow s).luminanceBridgeActive
      = true := by
  have hmd : morphDispersing s.animationMode ((nowMs - s.animationStartTime) / 1000)
      = (morphOf ((nowMs - s.animationStartTime) / 1000),
         dispersingOf ((nowMs - s.animationStartTime) / 1000)) := by
    simp [morphDispersing, hm]
  rw [updateAnimationUniforms, hu]
  simp only [Bool.true_eq_false, if_false, hmd, hdisp, hpc, hlum]
  simp only [Bool.false_eq_true, false_and, and_false, ite_self, if_false,
    inModelRevealWindow, Bool.not_true, Bool.and_false, Bool.false_and, hm]
  rw [if_neg hp.not_le]
  simp only [if_true]

/-- C9 counterexample: `setAnimationMode` does NOT deactivate an active bridge for
every new mode.  In `exViewerState` the luminance bridge is active mid-ramp;
calling `setAnimation` with the non-`none` mode `"swirl"` leaves it active,
contradicting the claim that any active bridge is deactivated "regardless of the
new mode" (the source only clears bridges when the new mode is `none`,
`src/SplatViewer.ts:281-286`). -/
theorem set_animation_claim_false :
    ¬ ((setAnimation 2000 "swirl" 0 0 exViewerState).luminanceBridgeActive
        = false) := by
  have hmode : normalizeAnimationInput "swirl" = AnimMode.swirl := by decide
  have hstate : setAnimation 2000 "swirl" 0 0 exViewerState
      = updateAnimationUniforms 2000 0 0 exSwirlState := by
    simp only [setAnimation, hmode]
    rw [if_neg (by decide : ¬ (AnimMode.swirl = AnimMode.none))]
    norm_num [applyAnimationStyle, exViewerState, exSwirlState]
  rw [hstate]
  have h := updateAnimationUniforms_lum_active 2000 0 0 exSwirlState rfl (by decide)
    (by norm_num [dispersingOf, jsPhase, jsMod, jsTrunc, morphLoopSeconds,
      exSwirlState])
    rfl rfl
    (by norm_num [easeOutCubic, smoothstepQ, clamp01,
      luminanceBridgeDurationSeconds, exSwirlState])
  rw [h]
  simp

/-- C9 (amended): every `setAnimationMode` call resets the MorphClock start time to
the current time; the luminance and scale bridges are deactivated (and the applied
gain and scale reset to 1) exactly when the new mode resolves to `none` — a mode
change to a non-`none` mode leaves an active bridge running
(`set_animation_claim_false`). -/
theorem set_animation_resets (nowMs : ℚ) (modeStr : String) (cf sf : ℚ)
    (s : ViewerState) :
    (setAnimation nowMs modeStr cf sf s).animationStartTime = nowMs
    ∧ (normalizeAnimationInput modeStr = AnimMode.none →
        (setAnimation nowMs modeStr cf sf s).luminanceBridgeActive = false
        ∧ (setAnimation nowMs modeStr cf sf s).scaleBridgeActive = false
        ∧ (setAnimation nowMs modeStr cf sf s).colorGainApplied = 1
        ∧ (setAnimation nowMs modeStr cf sf s).scaleApplied = 1) := by
  constructor
  · simp only [setAnimation]
    rw [updateAnimationUniforms_startTime, (applyAnimationStyle_fields _ _).2.1]
    split_ifs <;> rfl
  · intro hm
    simp only [setAnimation, hm, if_true, ite_true]
    refine updateAnimationUniforms_none nowMs cf sf _ ?_ ?_ ?_ ?_ ?_ ?_
    · rw [(applyAnimationStyle_fields _ _).1]
    · rw [(applyAnimationStyle_fields _ _).2.2.2.1]
    · rw [(applyAnimationStyle_fields _ _).2.2.2.2.1]
    · rw [(applyAnimationStyle_fields _ _).2.2.2.2.2.1]
    · rw [(applyAnimationStyle_fields _ _).2.2.2.2.2.2]
    · rw [(applyAnimationStyle_fields _ _).2.2.1]

/-- Witness for `set_animation_resets`: switching the concrete state to `"off"`
(an alias of `none`) deactivates the luminance bridge. -/
theorem set_animation_resets_witness :
    (setAnimation 2000 "off" 0 0 exViewerState).luminanceBridgeActive = false :=
  ((set_animation_resets 2000 "off" 0 0 exViewerState).2 (by decide)).1

/-- C10 counterexample: the low-tier re-probe interval is NOT double the base
interval.  On desktop under the low tier the effective interval is
`36 · 1.9 = 68.4` ms, not `72` ms; concretely, a marker last probed at 0 is
re-probed at `now = 70` ms (its probe timestamp advances), although under the
claimed doubled interval `70 < 72` would still lie inside the cached window. -/
theorem probe_throttle_claim_false :
    activeOverlapCheckIntervalMs PerfLevel.low false ≠ 2 * overlapCheckIntervalMs false
    ∧ activeOverlapCheckIntervalMs PerfLevel.low false = 342/5
    ∧ (bubbleProbeStep 70 none PerfLevel.low false 800 600 100 100 14
        exBubbleA).lastOverlapCheckMs = 70
    ∧ (70 : ℚ) - exBubbleA.lastOverlapCheckMs < 2 * overlapCheckIntervalMs false := by
  refine ⟨by norm_num [activeOverlapCheckIntervalMs, overlapCheckIntervalMs],
    by norm_num [activeOverlapCheckIntervalMs, overlapCheckIntervalMs], ?_,
    by norm_num [overlapCheckIntervalMs, exBubbleA]⟩
  rw [bubbleProbeStep, if_pos (by norm_num [activeOverlapCheckIntervalMs,
    overlapCheckIntervalMs, exBubbleA])]

/-- C10 (amended): the occlusion probe re-probes a marker only when at least the
throttle interval has elapsed since that marker's last probe — 36 ms on desktop,
120 ms on mobile, multiplied by 1.9 (not doubled) under the low-performance
tier; between probes the cached `overModel` result is reused unchanged. -/
theorem probe_throttle_spec (nowMs : ℚ) (glOpt : Option GLContext)
    (perf : PerfLevel) (isMobileLike : Bool) (clientW clientH px py rad : ℚ)
    (b : Bubble) :
    overlapCheckIntervalMs false = 36
    ∧ overlapCheckIntervalMs true = 120
    ∧ (∀ mob : Bool, activeOverlapCheckIntervalMs PerfLevel.low mob
        = overlapCheckIntervalMs mob * 19/10)
    ∧ (∀ mob : Bool, activeOverlapCheckIntervalMs PerfLevel.high mob
        = overlapCheckIntervalMs mob)
    ∧ (nowMs - b.lastOverlapCheckMs < activeOverlapCheckIntervalMs perf isMobileLike →
        bubbleProbeStep nowMs glOpt perf isMobileLike clientW clientH px py rad b = b)
    ∧ (activeOverlapCheckIntervalMs perf isMobileLike ≤ nowMs - b.lastOverlapCheckMs →
        (bubbleProbeStep nowMs glOpt perf isMobileLike clientW clientH px py rad
            b).overModel
          = isModelPixelCovered glOpt perf isMobileLike clientW clientH px py rad
        ∧ (bubbleProbeStep nowMs glOpt perf isMobileLike clientW clientH px py rad
            b).lastOverlapCheckMs = nowMs) := by
  refine ⟨rfl, rfl, fun mob => rfl, fun mob => rfl, ?_, ?_⟩
  · intro h
    rw [bubbleProbeStep, if_neg (not_le.mpr h)]
  · intro h
    rw [bubbleProbeStep, if_pos h]
    exact ⟨rfl, rfl⟩

/-- Witness for `probe_throttle_spec`: at `now = 50` ms a desktop low-tier marker
last probed at 0 is inside the `68.4` ms window, so the tick leaves it unchanged. -/
theorem probe_throttle_spec_witness :
    bubbleProbeStep 50 none PerfLevel.low false 800 600 100 100 14 exBubbleA
      = exBubbleA :=
  (probe_throttle_spec 50 none PerfLevel.low false 800 600 100 100 14
    exBubbleA).2.2.2.2.1
    (by norm_num [activeOverlapCheckIntervalMs, overlapCheckIntervalMs, exBubbleA])
